import Mathlib

/-!
# Arrow Flight SQL dispatch layer: a shallow embedding

This development embeds the Flight SQL layer of the repository
(`cpp/src/arrow/flight/flight-sql/server.cpp`,
`cpp/src/arrow/flight/sql/column_metadata.cc`, and the client behaviour
exercised by `cpp/src/arrow/flight/flight-sql/client_test.cc`) into Lean 4 and
proves the specification's testable properties about it.

Conventions:
* Arrow schemas are lists of `Field` records (name, type, nullability), with
  the C++ `arrow::field(name, type)` two-argument overload defaulting
  nullability to `true`, exactly as in the Arrow C++ library.
* A protobuf `google.protobuf.Any` is embedded as an `Envelope`: the type URL
  string together with the message's field values (the byte-level protobuf
  serialization is external library code; its field content is what the
  dispatchers inspect).
* Server dispatch entry points return a `DispatchOutcome`: either the single
  handler call they perform (constructor plus the arguments passed), or the
  error status they return.  The C++ code ignores the boolean result of
  `Any::UnpackTo`, so a branch whose tag matches always invokes its handler,
  with the parsed command or the proto3 default message on parse failure.
-/

namespace FlightSqlModel

/-! ## Arrow schema model -/

/-- The Arrow data types appearing in the Flight SQL result-set schemas. -/
inductive ArrowType where
  | utf8
  | binary
  | int64
  | int32
  | uint8
deriving DecidableEq, Repr

/-- An Arrow schema field: name, type and nullability. -/
structure Field where
  name : String
  type : ArrowType
  nullable : Bool
deriving DecidableEq, Repr

/-- The two-argument `arrow::field(name, type)` call: nullability defaults to
`true` in the Arrow C++ library. -/
def field (name : String) (ty : ArrowType) : Field :=
  ⟨name, ty, true⟩

/-- The three-argument `arrow::field(name, type, nullable)` call. -/
def fieldN (name : String) (ty : ArrowType) (nullable : Bool) : Field :=
  ⟨name, ty, nullable⟩

namespace SqlSchema

/-- `SqlSchema::GetCatalogsSchema` from `server.cpp`. -/
def GetCatalogsSchema : List Field :=
  [field "catalog_name" .utf8]

/-- `SqlSchema::GetSchemasSchema` from `server.cpp`. -/
def GetSchemasSchema : List Field :=
  [field "catalog_name" .utf8, fieldN "schema_name" .utf8 false]

/-- `SqlSchema::GetTablesSchema` from `server.cpp`. -/
def GetTablesSchema : List Field :=
  [field "catalog_name" .utf8, field "schema_name" .utf8,
   field "table_name" .utf8, field "table_type" .utf8]

/-- `SqlSchema::GetTablesSchemaWithIncludedSchema` from `server.cpp`. -/
def GetTablesSchemaWithIncludedSchema : List Field :=
  [field "catalog_name" .utf8, field "schema_name" .utf8,
   field "table_name" .utf8, field "table_type" .utf8,
   field "table_schema" .binary]

/-- `SqlSchema::GetTableTypesSchema` from `server.cpp`. -/
def GetTableTypesSchema : List Field :=
  [field "table_type" .utf8]

/-- `SqlSchema::GetPrimaryKeysSchema` from `server.cpp`. -/
def GetPrimaryKeysSchema : List Field :=
  [field "catalog_name" .utf8, field "schema_name" .utf8,
   field "table_name" .utf8, field "column_name" .utf8,
   field "key_sequence" .int64, field "key_name" .utf8]

/-- `SqlSchema::GetImportedAndExportedKeysSchema` from `server.cpp`. -/
def GetImportedAndExportedKeysSchema : List Field :=
  [fieldN "pk_catalog_name" .utf8 true, fieldN "pk_schema_name" .utf8 true,
   fieldN "pk_table_name" .utf8 false, fieldN "pk_column_name" .utf8 false,
   fieldN "fk_catalog_name" .utf8 true, fieldN "fk_schema_name" .utf8 true,
   fieldN "fk_table_name" .utf8 false, fieldN "fk_column_name" .utf8 false,
   fieldN "key_sequence" .int32 false, fieldN "fk_key_name" .utf8 true,
   fieldN "pk_key_name" .utf8 true, fieldN "update_rule" .uint8 false,
   fieldN "delete_rule" .uint8 false]

end SqlSchema

/-- The 13-column layout of the spec's table row for
GetImportedKeys / GetExportedKeys, transcribed from the spec's words (for
comparison with the source-derived `SqlSchema.GetImportedAndExportedKeysSchema`). -/
def specImportedExportedKeysLayout : List Field :=
  [⟨"pk_catalog_name", .utf8, true⟩, ⟨"pk_schema_name", .utf8, true⟩,
   ⟨"pk_table_name", .utf8, false⟩, ⟨"pk_column_name", .utf8, false⟩,
   ⟨"fk_catalog_name", .utf8, true⟩, ⟨"fk_schema_name", .utf8, true⟩,
   ⟨"fk_table_name", .utf8, false⟩, ⟨"fk_column_name", .utf8, false⟩,
   ⟨"key_sequence", .int32, false⟩, ⟨"fk_key_name", .utf8, true⟩,
   ⟨"pk_key_name", .utf8, true⟩, ⟨"update_rule", .uint8, false⟩,
   ⟨"delete_rule", .uint8, false⟩]

/-! ## Column metadata (`column_metadata.cc`) -/

namespace ColumnMetadata

/-- `ColumnMetadata::CATALOG_NAME`. -/
def CATALOG_NAME : String := "CATALOG_NAME"

/-- `ColumnMetadata::SCHEMA_NAME`. -/
def SCHEMA_NAME : String := "SCHEMA_NAME"

/-- `ColumnMetadata::TABLE_NAME`. -/
def TABLE_NAME : String := "TABLE_NAME"

/-- `ColumnMetadata::PRECISION`. -/
def PRECISION : String := "PRECISION"

/-- `ColumnMetadata::SCALE`. -/
def SCALE : String := "SCALE"

/-- `ColumnMetadata::IS_AUTO_INCREMENT`. -/
def IS_AUTO_INCREMENT : String := "IS_AUTO_INCREMENT"

/-- `ColumnMetadata::IS_CASE_SENSITIVE`. -/
def IS_CASE_SENSITIVE : String := "IS_CASE_SENSITIVE"

/-- `ColumnMetadata::IS_READ_ONLY`. -/
def IS_READ_ONLY : String := "IS_READ_ONLY"

/-- `ColumnMetadata::IS_SEARCHABLE`. -/
def IS_SEARCHABLE : String := "IS_SEARCHABLE"

/-- `ColumnMetadata::BOOLEAN_TRUE_STR`. -/
def BOOLEAN_TRUE_STR : String := "YES"

/-- `ColumnMetadata::BOOLEAN_FALSE_STR`. -/
def BOOLEAN_FALSE_STR : String := "NO"

end ColumnMetadata

/-- The builder's backing `arrow::KeyValueMetadata`: an append-ordered list of
key/value pairs. -/
structure ColumnMetadataBuilder where
  metadata_map : List (String × String)
deriving DecidableEq, Repr

namespace ColumnMetadataBuilder

/-- `ColumnMetadataBuilder::ColumnMetadataBuilder()`: starts from an empty
key-value map. -/
def mk0 : ColumnMetadataBuilder := ⟨[]⟩

/-- `KeyValueMetadata::Append`. -/
def append (b : ColumnMetadataBuilder) (key value : String) : ColumnMetadataBuilder :=
  ⟨b.metadata_map ++ [(key, value)]⟩

/-- `ColumnMetadataBuilder::BooleanToString` from `column_metadata.cc`. -/
def BooleanToString (boolean_value : Bool) : String :=
  if boolean_value then ColumnMetadata.BOOLEAN_TRUE_STR
  else ColumnMetadata.BOOLEAN_FALSE_STR

/-- `ColumnMetadataBuilder::CatalogName`. -/
def CatalogName (b : ColumnMetadataBuilder) (catalog_name : String) :
    ColumnMetadataBuilder :=
  b.append ColumnMetadata.CATALOG_NAME catalog_name

/-- `ColumnMetadataBuilder::SchemaName`. -/
def SchemaName (b : ColumnMetadataBuilder) (schema_name : String) :
    ColumnMetadataBuilder :=
  b.append ColumnMetadata.SCHEMA_NAME schema_name

/-- `ColumnMetadataBuilder::TableName`. -/
def TableName (b : ColumnMetadataBuilder) (table_name : String) :
    ColumnMetadataBuilder :=
  b.append ColumnMetadata.TABLE_NAME table_name

/-- `ColumnMetadataBuilder::IsAutoIncrement`. -/
def IsAutoIncrement (b : ColumnMetadataBuilder) (is_auto_increment : Bool) :
    ColumnMetadataBuilder :=
  b.append ColumnMetadata.IS_AUTO_INCREMENT (BooleanToString is_auto_increment)

/-- `ColumnMetadataBuilder::IsCaseSensitive`. -/
def IsCaseSensitive (b : ColumnMetadataBuilder) (is_case_sensitive : Bool) :
    ColumnMetadataBuilder :=
  b.append ColumnMetadata.IS_CASE_SENSITIVE (BooleanToString is_case_sensitive)

/-- `ColumnMetadataBuilder::IsReadOnly`. -/
def IsReadOnly (b : ColumnMetadataBuilder) (is_read_only : Bool) :
    ColumnMetadataBuilder :=
  b.append ColumnMetadata.IS_READ_ONLY (BooleanToString is_read_only)

/-- `ColumnMetadataBuilder::IsSearchable`. -/
def IsSearchable (b : ColumnMetadataBuilder) (is_searchable : Bool) :
    ColumnMetadataBuilder :=
  b.append ColumnMetadata.IS_SEARCHABLE (BooleanToString is_searchable)

end ColumnMetadataBuilder

/-! ## Command messages

The protobuf messages of `arrow.flight.protocol.sql` used by the dispatchers
and the client tests.  Optional proto fields become `Option`, repeated fields
become `List`, and proto3 defaults are the `protoDefault` values (empty
strings, `none`, `false`, empty lists, `0`). -/

/-- `CommandStatementQuery`: a raw SQL query string. -/
structure CommandStatementQuery where
  query : String
deriving DecidableEq, Repr

/-- `CommandPreparedStatementQuery`: an opaque prepared-statement handle. -/
structure CommandPreparedStatementQuery where
  prepared_statement_handle : String
deriving DecidableEq, Repr

/-- `CommandStatementUpdate`: a raw SQL update string. -/
structure CommandStatementUpdate where
  query : String
deriving DecidableEq, Repr

/-- `CommandGetCatalogs`: no fields. -/
structure CommandGetCatalogs where
deriving DecidableEq, Repr

/-- `CommandGetSchemas`: optional catalog and schema filter pattern. -/
structure CommandGetSchemas where
  catalog : Option String
  schema_filter_pattern : Option String
deriving DecidableEq, Repr

/-- `CommandGetTables`: filters, table-type list and the include-schema flag. -/
structure CommandGetTables where
  catalog : Option String
  schema_filter_pattern : Option String
  table_name_filter_pattern : Option String
  table_types : List String
  include_schema : Bool
deriving DecidableEq, Repr

/-- `CommandGetTableTypes`: no fields. -/
structure CommandGetTableTypes where
deriving DecidableEq, Repr

/-- `CommandGetSqlInfo`: a repeated list of requested info codes. -/
structure CommandGetSqlInfo where
  info : List Nat
deriving DecidableEq, Repr

/-- `CommandGetPrimaryKeys`: optional catalog/schema filters and a table name. -/
structure CommandGetPrimaryKeys where
  catalog : Option String
  schema : Option String
  table : String
deriving DecidableEq, Repr

/-- `CommandGetExportedKeys`. -/
structure CommandGetExportedKeys where
  catalog : Option String
  schema : Option String
  table : String
deriving DecidableEq, Repr

/-- `CommandGetImportedKeys`. -/
structure CommandGetImportedKeys where
  catalog : Option String
  schema : Option String
  table : String
deriving DecidableEq, Repr

/-- `CommandGetCrossReference`: primary-key side and foreign-key side filters. -/
structure CommandGetCrossReference where
  pk_catalog : Option String
  pk_schema : Option String
  pk_table : String
  fk_catalog : Option String
  fk_schema : Option String
  fk_table : String
deriving DecidableEq, Repr

/-- `TicketStatementQuery`: the opaque statement handle inside a Ticket. -/
structure TicketStatementQuery where
  statement_handle : String
deriving DecidableEq, Repr

/-- `ActionCreatePreparedStatementRequest`: the query to prepare. -/
structure ActionCreatePreparedStatementRequest where
  query : String
deriving DecidableEq, Repr

/-- `ActionClosePreparedStatementRequest`: the handle to close. -/
structure ActionClosePreparedStatementRequest where
  prepared_statement_handle : String
deriving DecidableEq, Repr

/-- proto3 default `CommandStatementQuery`. -/
def CommandStatementQuery.protoDefault : CommandStatementQuery := ⟨""⟩

/-- proto3 default `CommandPreparedStatementQuery`. -/
def CommandPreparedStatementQuery.protoDefault : CommandPreparedStatementQuery := ⟨""⟩

/-- proto3 default `CommandStatementUpdate`. -/
def CommandStatementUpdate.protoDefault : CommandStatementUpdate := ⟨""⟩

/-- proto3 default `CommandGetSchemas`. -/
def CommandGetSchemas.protoDefault : CommandGetSchemas := ⟨none, none⟩

/-- proto3 default `CommandGetTables`. -/
def CommandGetTables.protoDefault : CommandGetTables := ⟨none, none, none, [], false⟩

/-- proto3 default `CommandGetSqlInfo`. -/
def CommandGetSqlInfo.protoDefault : CommandGetSqlInfo := ⟨[]⟩

/-- proto3 default `CommandGetPrimaryKeys`. -/
def CommandGetPrimaryKeys.protoDefault : CommandGetPrimaryKeys := ⟨none, none, ""⟩

/-- proto3 default `CommandGetExportedKeys`. -/
def CommandGetExportedKeys.protoDefault : CommandGetExportedKeys := ⟨none, none, ""⟩

/-- proto3 default `CommandGetImportedKeys`. -/
def CommandGetImportedKeys.protoDefault : CommandGetImportedKeys := ⟨none, none, ""⟩

/-- proto3 default `TicketStatementQuery`. -/
def TicketStatementQuery.protoDefault : TicketStatementQuery := ⟨""⟩

/-- proto3 default `ActionCreatePreparedStatementRequest`. -/
def ActionCreatePreparedStatementRequest.protoDefault :
    ActionCreatePreparedStatementRequest := ⟨""⟩

/-- proto3 default `ActionClosePreparedStatementRequest`. -/
def ActionClosePreparedStatementRequest.protoDefault :
    ActionClosePreparedStatementRequest := ⟨""⟩

/-- The closed set of command variants carried inside envelopes
(the spec's §3 `Command`). -/
inductive Command where
  | statementQuery (c : CommandStatementQuery)
  | preparedStatementQuery (c : CommandPreparedStatementQuery)
  | statementUpdate (c : CommandStatementUpdate)
  | getCatalogs (c : CommandGetCatalogs)
  | getSchemas (c : CommandGetSchemas)
  | getTables (c : CommandGetTables)
  | getTableTypes (c : CommandGetTableTypes)
  | getSqlInfo (c : CommandGetSqlInfo)
  | getPrimaryKeys (c : CommandGetPrimaryKeys)
  | getExportedKeys (c : CommandGetExportedKeys)
  | getImportedKeys (c : CommandGetImportedKeys)
  | getCrossReference (c : CommandGetCrossReference)
  | ticketStatementQuery (c : TicketStatementQuery)
  | createPreparedStatementRequest (c : ActionCreatePreparedStatementRequest)
  | closePreparedStatementRequest (c : ActionClosePreparedStatementRequest)
deriving DecidableEq, Repr

/-! ## The envelope codec

`google.protobuf.Any` type URLs, as produced by `Any::PackFrom` for the
`arrow.flight.protocol.sql` messages.  `Any::Is<T>` compares the packed type
URL against `T`'s full message name. -/

/-- Type URL of `CommandStatementQuery`. -/
def tagStatementQuery : String :=
  "type.googleapis.com/arrow.flight.protocol.sql.CommandStatementQuery"

/-- Type URL of `CommandPreparedStatementQuery`. -/
def tagPreparedStatementQuery : String :=
  "type.googleapis.com/arrow.flight.protocol.sql.CommandPreparedStatementQuery"

/-- Type URL of `CommandStatementUpdate`. -/
def tagStatementUpdate : String :=
  "type.googleapis.com/arrow.flight.protocol.sql.CommandStatementUpdate"

/-- Type URL of `CommandGetCatalogs`. -/
def tagGetCatalogs : String :=
  "type.googleapis.com/arrow.flight.protocol.sql.CommandGetCatalogs"

/-- Type URL of `CommandGetSchemas`. -/
def tagGetSchemas : String :=
  "type.googleapis.com/arrow.flight.protocol.sql.CommandGetSchemas"

/-- Type URL of `CommandGetTables`. -/
def tagGetTables : String :=
  "type.googleapis.com/arrow.flight.protocol.sql.CommandGetTables"

/-- Type URL of `CommandGetTableTypes`. -/
def tagGetTableTypes : String :=
  "type.googleapis.com/arrow.flight.protocol.sql.CommandGetTableTypes"

/-- Type URL of `CommandGetSqlInfo`. -/
def tagGetSqlInfo : String :=
  "type.googleapis.com/arrow.flight.protocol.sql.CommandGetSqlInfo"

/-- Type URL of `CommandGetPrimaryKeys`. -/
def tagGetPrimaryKeys : String :=
  "type.googleapis.com/arrow.flight.protocol.sql.CommandGetPrimaryKeys"

/-- Type URL of `CommandGetExportedKeys`. -/
def tagGetExportedKeys : String :=
  "type.googleapis.com/arrow.flight.protocol.sql.CommandGetExportedKeys"

/-- Type URL of `CommandGetImportedKeys`. -/
def tagGetImportedKeys : String :=
  "type.googleapis.com/arrow.flight.protocol.sql.CommandGetImportedKeys"

/-- Type URL of `CommandGetCrossReference`. -/
def tagGetCrossReference : String :=
  "type.googleapis.com/arrow.flight.protocol.sql.CommandGetCrossReference"

/-- Type URL of `TicketStatementQuery`. -/
def tagTicketStatementQuery : String :=
  "type.googleapis.com/arrow.flight.protocol.sql.TicketStatementQuery"

/-- Type URL of `ActionCreatePreparedStatementRequest`. -/
def tagActionCreatePreparedStatementRequest : String :=
  "type.googleapis.com/arrow.flight.protocol.sql.ActionCreatePreparedStatementRequest"

/-- Type URL of `ActionClosePreparedStatementRequest`. -/
def tagActionClosePreparedStatementRequest : String :=
  "type.googleapis.com/arrow.flight.protocol.sql.ActionClosePreparedStatementRequest"

/-- A serialized protobuf field value inside an envelope payload. -/
inductive FieldVal where
  | s (v : String)
  | os (v : Option String)
  | b (v : Bool)
  | sl (v : List String)
  | nl (v : List Nat)
deriving DecidableEq, Repr

/-- A packed `google.protobuf.Any`: the type URL and the payload's field
values in message-field order. -/
structure Envelope where
  type_url : String
  value : List FieldVal
deriving DecidableEq, Repr

/-- The type URL a command variant is packed under. -/
def Command.tag : Command → String
  | .statementQuery _ => tagStatementQuery
  | .preparedStatementQuery _ => tagPreparedStatementQuery
  | .statementUpdate _ => tagStatementUpdate
  | .getCatalogs _ => tagGetCatalogs
  | .getSchemas _ => tagGetSchemas
  | .getTables _ => tagGetTables
  | .getTableTypes _ => tagGetTableTypes
  | .getSqlInfo _ => tagGetSqlInfo
  | .getPrimaryKeys _ => tagGetPrimaryKeys
  | .getExportedKeys _ => tagGetExportedKeys
  | .getImportedKeys _ => tagGetImportedKeys
  | .getCrossReference _ => tagGetCrossReference
  | .ticketStatementQuery _ => tagTicketStatementQuery
  | .createPreparedStatementRequest _ => tagActionCreatePreparedStatementRequest
  | .closePreparedStatementRequest _ => tagActionClosePreparedStatementRequest

/-- Modelled from the spec: the Envelope Codec's `encode(command) -> bytes`
(§4.1).  The byte-level protobuf serialization lives in the protobuf library
and the Flight SQL client sources, which are not part of the sampled code;
the visible contract (`Any::PackFrom` then `SerializeAsString`, as in the
tests' `getDescriptor`) is a self-describing pair of the command's stable
type tag and its serialized field values. -/
def encodeCommand : Command → Envelope
  | .statementQuery c => ⟨tagStatementQuery, [.s c.query]⟩
  | .preparedStatementQuery c =>
      ⟨tagPreparedStatementQuery, [.s c.prepared_statement_handle]⟩
  | .statementUpdate c => ⟨tagStatementUpdate, [.s c.query]⟩
  | .getCatalogs _ => ⟨tagGetCatalogs, []⟩
  | .getSchemas c => ⟨tagGetSchemas, [.os c.catalog, .os c.schema_filter_pattern]⟩
  | .getTables c =>
      ⟨tagGetTables, [.os c.catalog, .os c.schema_filter_pattern,
        .os c.table_name_filter_pattern, .sl c.table_types, .b c.include_schema]⟩
  | .getTableTypes _ => ⟨tagGetTableTypes, []⟩
  | .getSqlInfo c => ⟨tagGetSqlInfo, [.nl c.info]⟩
  | .getPrimaryKeys c => ⟨tagGetPrimaryKeys, [.os c.catalog, .os c.schema, .s c.table]⟩
  | .getExportedKeys c => ⟨tagGetExportedKeys, [.os c.catalog, .os c.schema, .s c.table]⟩
  | .getImportedKeys c => ⟨tagGetImportedKeys, [.os c.catalog, .os c.schema, .s c.table]⟩
  | .getCrossReference c =>
      ⟨tagGetCrossReference, [.os c.pk_catalog, .os c.pk_schema, .s c.pk_table,
        .os c.fk_catalog, .os c.fk_schema, .s c.fk_table]⟩
  | .ticketStatementQuery c => ⟨tagTicketStatementQuery, [.s c.statement_handle]⟩
  | .createPreparedStatementRequest c =>
      ⟨tagActionCreatePreparedStatementRequest, [.s c.query]⟩
  | .closePreparedStatementRequest c =>
      ⟨tagActionClosePreparedStatementRequest, [.s c.prepared_statement_handle]⟩

/-- Deserializer for `CommandStatementQuery` payloads. -/
def parseStatementQuery : List FieldVal → Option CommandStatementQuery
  | [.s q] => some ⟨q⟩
  | _ => none

/-- Deserializer for `CommandPreparedStatementQuery` payloads. -/
def parsePreparedStatementQuery : List FieldVal → Option CommandPreparedStatementQuery
  | [.s h] => some ⟨h⟩
  | _ => none

/-- Deserializer for `CommandStatementUpdate` payloads. -/
def parseStatementUpdate : List FieldVal → Option CommandStatementUpdate
  | [.s q] => some ⟨q⟩
  | _ => none

/-- Deserializer for `CommandGetCatalogs` payloads. -/
def parseGetCatalogs : List FieldVal → Option CommandGetCatalogs
  | [] => some ⟨⟩
  | _ => none

/-- Deserializer for `CommandGetSchemas` payloads. -/
def parseGetSchemas : List FieldVal → Option CommandGetSchemas
  | [.os c, .os p] => some ⟨c, p⟩
  | _ => none

/-- Deserializer for `CommandGetTables` payloads. -/
def parseGetTables : List FieldVal → Option CommandGetTables
  | [.os c, .os sp, .os tp, .sl ts, .b i] => some ⟨c, sp, tp, ts, i⟩
  | _ => none

/-- Deserializer for `CommandGetTableTypes` payloads. -/
def parseGetTableTypes : List FieldVal → Option CommandGetTableTypes
  | [] => some ⟨⟩
  | _ => none

/-- Deserializer for `CommandGetSqlInfo` payloads. -/
def parseGetSqlInfo : List FieldVal → Option CommandGetSqlInfo
  | [.nl l] => some ⟨l⟩
  | _ => none

/-- Deserializer for `CommandGetPrimaryKeys` payloads. -/
def parseGetPrimaryKeys : List FieldVal → Option CommandGetPrimaryKeys
  | [.os c, .os s, .s t] => some ⟨c, s, t⟩
  | _ => none

/-- Deserializer for `CommandGetExportedKeys` payloads. -/
def parseGetExportedKeys : List FieldVal → Option CommandGetExportedKeys
  | [.os c, .os s, .s t] => some ⟨c, s, t⟩
  | _ => none

/-- Deserializer for `CommandGetImportedKeys` payloads. -/
def parseGetImportedKeys : List FieldVal → Option CommandGetImportedKeys
  | [.os c, .os s, .s t] => some ⟨c, s, t⟩
  | _ => none

/-- Deserializer for `CommandGetCrossReference` payloads. -/
def parseGetCrossReference : List FieldVal → Option CommandGetCrossReference
  | [.os pc, .os ps, .s pt, .os fc, .os fs, .s ft] => some ⟨pc, ps, pt, fc, fs, ft⟩
  | _ => none

/-- Deserializer for `TicketStatementQuery` payloads. -/
def parseTicketStatementQuery : List FieldVal → Option TicketStatementQuery
  | [.s h] => some ⟨h⟩
  | _ => none

/-- Deserializer for `ActionCreatePreparedStatementRequest` payloads. -/
def parseActionCreatePreparedStatementRequest :
    List FieldVal → Option ActionCreatePreparedStatementRequest
  | [.s q] => some ⟨q⟩
  | _ => none

/-- Deserializer for `ActionClosePreparedStatementRequest` payloads. -/
def parseActionClosePreparedStatementRequest :
    List FieldVal → Option ActionClosePreparedStatementRequest
  | [.s h] => some ⟨h⟩
  | _ => none

/-- Modelled from the spec: the Envelope Codec's `decode(bytes) -> Command`
(§4.1): read the type tag, dispatch to the matching deserializer (the same
tag-comparison chain the server dispatchers use via `Any::Is`), and return
the reconstructed command; `none` stands for the `Malformed` failure when the
tag is unrecognized or the payload does not parse against that tag's schema.
The codec as a unit (protobuf `Any` pack/unpack plus the client encode path)
is not among the sampled sources. -/
def decodeCommand (e : Envelope) : Option Command :=
  if e.type_url = tagStatementQuery then
    (parseStatementQuery e.value).map .statementQuery
  else if e.type_url = tagPreparedStatementQuery then
    (parsePreparedStatementQuery e.value).map .preparedStatementQuery
  else if e.type_url = tagStatementUpdate then
    (parseStatementUpdate e.value).map .statementUpdate
  else if e.type_url = tagGetCatalogs then
    (parseGetCatalogs e.value).map .getCatalogs
  else if e.type_url = tagGetSchemas then
    (parseGetSchemas e.value).map .getSchemas
  else if e.type_url = tagGetTables then
    (parseGetTables e.value).map .getTables
  else if e.type_url = tagGetTableTypes then
    (parseGetTableTypes e.value).map .getTableTypes
  else if e.type_url = tagGetSqlInfo then
    (parseGetSqlInfo e.value).map .getSqlInfo
  else if e.type_url = tagGetPrimaryKeys then
    (parseGetPrimaryKeys e.value).map .getPrimaryKeys
  else if e.type_url = tagGetExportedKeys then
    (parseGetExportedKeys e.value).map .getExportedKeys
  else if e.type_url = tagGetImportedKeys then
    (parseGetImportedKeys e.value).map .getImportedKeys
  else if e.type_url = tagGetCrossReference then
    (parseGetCrossReference e.value).map .getCrossReference
  else if e.type_url = tagTicketStatementQuery then
    (parseTicketStatementQuery e.value).map .ticketStatementQuery
  else if e.type_url = tagActionCreatePreparedStatementRequest then
    (parseActionCreatePreparedStatementRequest e.value).map .createPreparedStatementRequest
  else if e.type_url = tagActionClosePreparedStatementRequest then
    (parseActionClosePreparedStatementRequest e.value).map .closePreparedStatementRequest
  else
    none

/-! ## Transport containers and statuses -/

/-- `FlightDescriptor` of command type: its `cmd` bytes parse to an `Any`. -/
structure FlightDescriptor where
  cmd : Envelope
deriving DecidableEq, Repr

/-- `Ticket`: its `ticket` bytes parse to an `Any`. -/
structure Ticket where
  ticket : Envelope
deriving DecidableEq, Repr

/-- `Action`: a type name plus a body whose bytes parse to an `Any`. -/
structure Action where
  type : String
  body : Envelope
deriving DecidableEq, Repr

/-- The `arrow::Status` values appearing in `server.cpp`. -/
inductive Status where
  | ok
  | invalid (msg : String)
  | notImplemented (msg : String)
deriving DecidableEq, Repr

/-- The status returned by every dispatcher on an unrecognized tag:
`Status::Invalid("The defined request is invalid.")`. -/
def invalidRequestStatus : Status :=
  Status.invalid "The defined request is invalid."

/-- Outcome of one server dispatch entry point: the single handler call it
performs (with the exact arguments passed), or the status it returns without
invoking any handler. -/
inductive DispatchOutcome (H : Type) where
  | invoke (call : H)
  | error (status : Status)
deriving DecidableEq, Repr

/-- Whether the outcome invoked a handler. -/
def DispatchOutcome.isInvoke {H : Type} : DispatchOutcome H → Bool
  | .invoke _ => true
  | .error _ => false

/-! ## `Any::UnpackTo`

`server.cpp` ignores the boolean result of `UnpackTo`, so when the payload
fails to parse the handler still runs with the default-initialized message. -/

/-- `UnpackTo` for `CommandStatementQuery`. -/
def unpackStatementQuery (e : Envelope) : CommandStatementQuery :=
  if e.type_url = tagStatementQuery then
    (parseStatementQuery e.value).getD .protoDefault
  else .protoDefault

/-- `UnpackTo` for `CommandPreparedStatementQuery`. -/
def unpackPreparedStatementQuery (e : Envelope) : CommandPreparedStatementQuery :=
  if e.type_url = tagPreparedStatementQuery then
    (parsePreparedStatementQuery e.value).getD .protoDefault
  else .protoDefault

/-- `UnpackTo` for `CommandStatementUpdate`. -/
def unpackStatementUpdate (e : Envelope) : CommandStatementUpdate :=
  if e.type_url = tagStatementUpdate then
    (parseStatementUpdate e.value).getD .protoDefault
  else .protoDefault

/-- `UnpackTo` for `CommandGetSchemas`. -/
def unpackGetSchemas (e : Envelope) : CommandGetSchemas :=
  if e.type_url = tagGetSchemas then
    (parseGetSchemas e.value).getD .protoDefault
  else .protoDefault

/-- `UnpackTo` for `CommandGetTables`. -/
def unpackGetTables (e : Envelope) : CommandGetTables :=
  if e.type_url = tagGetTables then
    (parseGetTables e.value).getD .protoDefault
  else .protoDefault

/-- `UnpackTo` for `CommandGetSqlInfo`. -/
def unpackGetSqlInfo (e : Envelope) : CommandGetSqlInfo :=
  if e.type_url = tagGetSqlInfo then
    (parseGetSqlInfo e.value).getD .protoDefault
  else .protoDefault

/-- `UnpackTo` for `CommandGetPrimaryKeys`. -/
def unpackGetPrimaryKeys (e : Envelope) : CommandGetPrimaryKeys :=
  if e.type_url = tagGetPrimaryKeys then
    (parseGetPrimaryKeys e.value).getD .protoDefault
  else .protoDefault

/-- `UnpackTo` for `CommandGetExportedKeys`. -/
def unpackGetExportedKeys (e : Envelope) : CommandGetExportedKeys :=
  if e.type_url = tagGetExportedKeys then
    (parseGetExportedKeys e.value).getD .protoDefault
  else .protoDefault

/-- `UnpackTo` for `CommandGetImportedKeys`. -/
def unpackGetImportedKeys (e : Envelope) : CommandGetImportedKeys :=
  if e.type_url = tagGetImportedKeys then
    (parseGetImportedKeys e.value).getD .protoDefault
  else .protoDefault

/-- `UnpackTo` for `TicketStatementQuery`. -/
def unpackTicketStatementQuery (e : Envelope) : TicketStatementQuery :=
  if e.type_url = tagTicketStatementQuery then
    (parseTicketStatementQuery e.value).getD .protoDefault
  else .protoDefault

/-- `UnpackTo` for `ActionCreatePreparedStatementRequest`. -/
def unpackActionCreatePreparedStatementRequest (e : Envelope) :
    ActionCreatePreparedStatementRequest :=
  if e.type_url = tagActionCreatePreparedStatementRequest then
    (parseActionCreatePreparedStatementRequest e.value).getD .protoDefault
  else .protoDefault

/-- `UnpackTo` for `ActionClosePreparedStatementRequest`. -/
def unpackActionClosePreparedStatementRequest (e : Envelope) :
    ActionClosePreparedStatementRequest :=
  if e.type_url = tagActionClosePreparedStatementRequest then
    (parseActionClosePreparedStatementRequest e.value).getD .protoDefault
  else .protoDefault

/-! ## Server dispatchers (`FlightSqlServerBase` in `server.cpp`)

Each handler-call constructor records exactly the command-derived arguments
the C++ entry point passes to the corresponding virtual method (the
`ServerCallContext` and the output pointer are passed unchanged to every
handler and are omitted). -/

/-- The handler calls `FlightSqlServerBase::GetFlightInfo` can perform.
`catalogs` and `tableTypes` receive no decoded command, only the original
descriptor, mirroring `GetFlightInfoCatalogs(context, request, info)` and
`GetFlightInfoTableTypes(context, request, info)`. -/
inductive InfoHandlerCall where
  | statement (command : CommandStatementQuery) (request : FlightDescriptor)
  | preparedStatement (command : CommandPreparedStatementQuery) (request : FlightDescriptor)
  | catalogs (request : FlightDescriptor)
  | schemas (command : CommandGetSchemas) (request : FlightDescriptor)
  | tables (command : CommandGetTables) (request : FlightDescriptor)
  | tableTypes (request : FlightDescriptor)
  | sqlInfo (command : CommandGetSqlInfo) (request : FlightDescriptor)
  | primaryKeys (command : CommandGetPrimaryKeys) (request : FlightDescriptor)
  | exportedKeys (command : CommandGetExportedKeys) (request : FlightDescriptor)
  | importedKeys (command : CommandGetImportedKeys) (request : FlightDescriptor)
deriving DecidableEq, Repr

/-- The type tag an `InfoHandlerCall` serves. -/
def InfoHandlerCall.servedTag : InfoHandlerCall → String
  | .statement _ _ => tagStatementQuery
  | .preparedStatement _ _ => tagPreparedStatementQuery
  | .catalogs _ => tagGetCatalogs
  | .schemas _ _ => tagGetSchemas
  | .tables _ _ => tagGetTables
  | .tableTypes _ => tagGetTableTypes
  | .sqlInfo _ _ => tagGetSqlInfo
  | .primaryKeys _ _ => tagGetPrimaryKeys
  | .exportedKeys _ _ => tagGetExportedKeys
  | .importedKeys _ _ => tagGetImportedKeys

/-- `FlightSqlServerBase::GetFlightInfo`: parse the descriptor's `cmd` as an
`Any` and route on its type tag through the source's `Is<T>` chain. -/
def GetFlightInfo (request : FlightDescriptor) : DispatchOutcome InfoHandlerCall :=
  let any := request.cmd
  if any.type_url = tagStatementQuery then
    .invoke (.statement (unpackStatementQuery any) request)
  else if any.type_url = tagPreparedStatementQuery then
    .invoke (.preparedStatement (unpackPreparedStatementQuery any) request)
  else if any.type_url = tagGetCatalogs then
    .invoke (.catalogs request)
  else if any.type_url = tagGetSchemas then
    .invoke (.schemas (unpackGetSchemas any) request)
  else if any.type_url = tagGetTables then
    .invoke (.tables (unpackGetTables any) request)
  else if any.type_url = tagGetTableTypes then
    .invoke (.tableTypes request)
  else if any.type_url = tagGetSqlInfo then
    .invoke (.sqlInfo (unpackGetSqlInfo any) request)
  else if any.type_url = tagGetPrimaryKeys then
    .invoke (.primaryKeys (unpackGetPrimaryKeys any) request)
  else if any.type_url = tagGetExportedKeys then
    .invoke (.exportedKeys (unpackGetExportedKeys any) request)
  else if any.type_url = tagGetImportedKeys then
    .invoke (.importedKeys (unpackGetImportedKeys any) request)
  else
    .error invalidRequestStatus

/-- The handler calls `FlightSqlServerBase::DoGet` can perform.  `catalogs`
and `tableTypes` receive nothing command-derived at all, mirroring
`DoGetCatalogs(context, stream)` and `DoGetTableTypes(context, stream)`. -/
inductive GetHandlerCall where
  | statement (command : TicketStatementQuery)
  | preparedStatement (command : CommandPreparedStatementQuery)
  | catalogs
  | schemas (command : CommandGetSchemas)
  | tables (command : CommandGetTables)
  | tableTypes
  | sqlInfo (command : CommandGetSqlInfo)
  | primaryKeys (command : CommandGetPrimaryKeys)
  | exportedKeys (command : CommandGetExportedKeys)
  | importedKeys (command : CommandGetImportedKeys)
deriving DecidableEq, Repr

/-- The type tag a `GetHandlerCall` serves. -/
def GetHandlerCall.servedTag : GetHandlerCall → String
  | .statement _ => tagTicketStatementQuery
  | .preparedStatement _ => tagPreparedStatementQuery
  | .catalogs => tagGetCatalogs
  | .schemas _ => tagGetSchemas
  | .tables _ => tagGetTables
  | .tableTypes => tagGetTableTypes
  | .sqlInfo _ => tagGetSqlInfo
  | .primaryKeys _ => tagGetPrimaryKeys
  | .exportedKeys _ => tagGetExportedKeys
  | .importedKeys _ => tagGetImportedKeys

/-- `FlightSqlServerBase::DoGet`: parse the ticket's bytes as an `Any` and
route on its type tag. -/
def DoGet (request : Ticket) : DispatchOutcome GetHandlerCall :=
  let anyCommand := request.ticket
  if anyCommand.type_url = tagTicketStatementQuery then
    .invoke (.statement (unpackTicketStatementQuery anyCommand))
  else if anyCommand.type_url = tagPreparedStatementQuery then
    .invoke (.preparedStatement (unpackPreparedStatementQuery anyCommand))
  else if anyCommand.type_url = tagGetCatalogs then
    .invoke .catalogs
  else if anyCommand.type_url = tagGetSchemas then
    .invoke (.schemas (unpackGetSchemas anyCommand))
  else if anyCommand.type_url = tagGetTables then
    .invoke (.tables (unpackGetTables anyCommand))
  else if anyCommand.type_url = tagGetTableTypes then
    .invoke .tableTypes
  else if anyCommand.type_url = tagGetSqlInfo then
    .invoke (.sqlInfo (unpackGetSqlInfo anyCommand))
  else if anyCommand.type_url = tagGetPrimaryKeys then
    .invoke (.primaryKeys (unpackGetPrimaryKeys anyCommand))
  else if anyCommand.type_url = tagGetExportedKeys then
    .invoke (.exportedKeys (unpackGetExportedKeys anyCommand))
  else if anyCommand.type_url = tagGetImportedKeys then
    .invoke (.importedKeys (unpackGetImportedKeys anyCommand))
  else
    .error invalidRequestStatus

/-- The handler calls `FlightSqlServerBase::DoPut` can perform (the message
reader and metadata writer are passed through unchanged and omitted). -/
inductive PutHandlerCall where
  | commandStatementUpdate (command : CommandStatementUpdate)
  | preparedStatement (command : CommandPreparedStatementQuery)
deriving DecidableEq, Repr

/-- The type tag a `PutHandlerCall` serves. -/
def PutHandlerCall.servedTag : PutHandlerCall → String
  | .commandStatementUpdate _ => tagStatementUpdate
  | .preparedStatement _ => tagPreparedStatementQuery

/-- `FlightSqlServerBase::DoPut`: parse the descriptor taken from the message
reader and route on its type tag. -/
def DoPut (request : FlightDescriptor) : DispatchOutcome PutHandlerCall :=
  let any := request.cmd
  if any.type_url = tagStatementUpdate then
    .invoke (.commandStatementUpdate (unpackStatementUpdate any))
  else if any.type_url = tagPreparedStatementQuery then
    .invoke (.preparedStatement (unpackPreparedStatementQuery any))
  else
    .error invalidRequestStatus

/-- Modelled from the spec: the `type` field of the
`FLIGHT_SQL_CREATE_PREPARED_STATEMENT` action descriptor.  The `ActionType`
constants are declared in `server.h`, which is not among the sampled
sources; the spec fixes the literal to `"CreatePreparedStatement"`. -/
def FLIGHT_SQL_CREATE_PREPARED_STATEMENT_TYPE : String := "CreatePreparedStatement"

/-- Modelled from the spec: the `type` field of the
`FLIGHT_SQL_CLOSE_PREPARED_STATEMENT` action descriptor, fixed by the spec
to `"ClosePreparedStatement"`. -/
def FLIGHT_SQL_CLOSE_PREPARED_STATEMENT_TYPE : String := "ClosePreparedStatement"

/-- `FlightSqlServerBase::ListActions`: the fixed two-entry catalog. -/
def ListActions : List String :=
  [FLIGHT_SQL_CREATE_PREPARED_STATEMENT_TYPE, FLIGHT_SQL_CLOSE_PREPARED_STATEMENT_TYPE]

/-- The handler calls `FlightSqlServerBase::DoAction` can perform. -/
inductive ActionHandlerCall where
  | createPreparedStatement (request : ActionCreatePreparedStatementRequest)
  | closePreparedStatement (request : ActionClosePreparedStatementRequest)
deriving DecidableEq, Repr

/-- The action type name an `ActionHandlerCall` serves. -/
def ActionHandlerCall.servedType : ActionHandlerCall → String
  | .createPreparedStatement _ => FLIGHT_SQL_CREATE_PREPARED_STATEMENT_TYPE
  | .closePreparedStatement _ => FLIGHT_SQL_CLOSE_PREPARED_STATEMENT_TYPE

/-- `FlightSqlServerBase::DoAction`: exact string match on the action's type
name, then unpack the body against the matching request message. -/
def DoAction (action : Action) : DispatchOutcome ActionHandlerCall :=
  if action.type = FLIGHT_SQL_CREATE_PREPARED_STATEMENT_TYPE then
    .invoke (.createPreparedStatement
      (unpackActionCreatePreparedStatementRequest action.body))
  else if action.type = FLIGHT_SQL_CLOSE_PREPARED_STATEMENT_TYPE then
    .invoke (.closePreparedStatement
      (unpackActionClosePreparedStatementRequest action.body))
  else
    .error invalidRequestStatus

/-- The type tags `GetFlightInfo` recognizes, in source order. -/
def getFlightInfoKnownTags : List String :=
  [tagStatementQuery, tagPreparedStatementQuery, tagGetCatalogs, tagGetSchemas,
   tagGetTables, tagGetTableTypes, tagGetSqlInfo, tagGetPrimaryKeys,
   tagGetExportedKeys, tagGetImportedKeys]

/-- The type tags `DoGet` recognizes, in source order. -/
def doGetKnownTags : List String :=
  [tagTicketStatementQuery, tagPreparedStatementQuery, tagGetCatalogs,
   tagGetSchemas, tagGetTables, tagGetTableTypes, tagGetSqlInfo,
   tagGetPrimaryKeys, tagGetExportedKeys, tagGetImportedKeys]

/-- The type tags `DoPut` recognizes, in source order. -/
def doPutKnownTags : List String :=
  [tagStatementUpdate, tagPreparedStatementQuery]

/-! ## Default handler implementations (`server.cpp` lines 183-327)

Every un-overridden handler of `FlightSqlServerBase` returns
`Status::NotImplemented(...)` and never assigns its output pointer (nor
writes any metadata).  Each is modelled as a function of the command-derived
arguments it receives, returning the status paired with the produced output
(`none`: the output pointer was left unassigned). -/

/-- Opaque `FlightInfo` produced by get-info handlers. -/
structure FlightInfo where
  payload : List Nat
deriving DecidableEq, Repr

/-- Opaque `FlightDataStream` produced by do-get handlers. -/
structure FlightDataStream where
  payload : List Nat
deriving DecidableEq, Repr

/-- Opaque `ResultStream` produced by action handlers. -/
structure ResultStream where
  payload : List Nat
deriving DecidableEq, Repr

/-- Default `FlightSqlServerBase::GetFlightInfoCatalogs`. -/
def GetFlightInfoCatalogs (_descriptor : FlightDescriptor) :
    Status × Option FlightInfo :=
  (.notImplemented "GetFlightInfoCatalogs not implemented", none)

/-- Default `FlightSqlServerBase::DoGetCatalogs`. -/
def DoGetCatalogs : Status × Option FlightDataStream :=
  (.notImplemented "DoGetCatalogs not implemented", none)

/-- Default `FlightSqlServerBase::GetFlightInfoStatement`. -/
def GetFlightInfoStatement (_command : CommandStatementQuery)
    (_descriptor : FlightDescriptor) : Status × Option FlightInfo :=
  (.notImplemented "GetFlightInfoStatement not implemented", none)

/-- Default `FlightSqlServerBase::DoGetStatement`. -/
def DoGetStatement (_command : TicketStatementQuery) :
    Status × Option FlightDataStream :=
  (.notImplemented "DoGetStatement not implemented", none)

/-- Default `FlightSqlServerBase::GetFlightInfoPreparedStatement`. -/
def GetFlightInfoPreparedStatement (_command : CommandPreparedStatementQuery)
    (_descriptor : FlightDescriptor) : Status × Option FlightInfo :=
  (.notImplemented "GetFlightInfoPreparedStatement not implemented", none)

/-- Default `FlightSqlServerBase::DoGetPreparedStatement`. -/
def DoGetPreparedStatement (_command : CommandPreparedStatementQuery) :
    Status × Option FlightDataStream :=
  (.notImplemented "DoGetPreparedStatement not implemented", none)

/-- Default `FlightSqlServerBase::GetFlightInfoSqlInfo`. -/
def GetFlightInfoSqlInfo (_command : CommandGetSqlInfo)
    (_descriptor : FlightDescriptor) : Status × Option FlightInfo :=
  (.notImplemented "GetFlightInfoSqlInfo not implemented", none)

/-- Default `FlightSqlServerBase::DoGetSqlInfo`. -/
def DoGetSqlInfo (_command : CommandGetSqlInfo) :
    Status × Option FlightDataStream :=
  (.notImplemented "DoGetSqlInfo not implemented", none)

/-- Default `FlightSqlServerBase::GetFlightInfoSchemas`. -/
def GetFlightInfoSchemas (_command : CommandGetSchemas)
    (_descriptor : FlightDescriptor) : Status × Option FlightInfo :=
  (.notImplemented "GetFlightInfoSchemas not implemented", none)

/-- Default `FlightSqlServerBase::DoGetSchemas`. -/
def DoGetSchemas (_command : CommandGetSchemas) :
    Status × Option FlightDataStream :=
  (.notImplemented "DoGetSchemas not implemented", none)

/-- Default `FlightSqlServerBase::GetFlightInfoTables`. -/
def GetFlightInfoTables (_command : CommandGetTables)
    (_descriptor : FlightDescriptor) : Status × Option FlightInfo :=
  (.notImplemented "GetFlightInfoTables not implemented", none)

/-- Default `FlightSqlServerBase::DoGetTables`. -/
def DoGetTables (_command : CommandGetTables) :
    Status × Option FlightDataStream :=
  (.notImplemented "DoGetTables not implemented", none)

/-- Default `FlightSqlServerBase::GetFlightInfoTableTypes`. -/
def GetFlightInfoTableTypes (_descriptor : FlightDescriptor) :
    Status × Option FlightInfo :=
  (.notImplemented "GetFlightInfoTableTypes not implemented", none)

/-- Default `FlightSqlServerBase::DoGetTableTypes`. -/
def DoGetTableTypes : Status × Option FlightDataStream :=
  (.notImplemented "DoGetTableTypes not implemented", none)

/-- Default `FlightSqlServerBase::GetFlightInfoPrimaryKeys`. -/
def GetFlightInfoPrimaryKeys (_command : CommandGetPrimaryKeys)
    (_descriptor : FlightDescriptor) : Status × Option FlightInfo :=
  (.notImplemented "GetFlightInfoPrimaryKeys not implemented", none)

/-- Default `FlightSqlServerBase::DoGetPrimaryKeys`. -/
def DoGetPrimaryKeys (_command : CommandGetPrimaryKeys) :
    Status × Option FlightDataStream :=
  (.notImplemented "DoGetPrimaryKeys not implemented", none)

/-- Default `FlightSqlServerBase::GetFlightInfoExportedKeys`. -/
def GetFlightInfoExportedKeys (_command : CommandGetExportedKeys)
    (_descriptor : FlightDescriptor) : Status × Option FlightInfo :=
  (.notImplemented "GetFlightInfoExportedKeys not implemented", none)

/-- Default `FlightSqlServerBase::DoGetExportedKeys`. -/
def DoGetExportedKeys (_command : CommandGetExportedKeys) :
    Status × Option FlightDataStream :=
  (.notImplemented "DoGetExportedKeys not implemented", none)

/-- Default `FlightSqlServerBase::GetFlightInfoImportedKeys`. -/
def GetFlightInfoImportedKeys (_command : CommandGetImportedKeys)
    (_descriptor : FlightDescriptor) : Status × Option FlightInfo :=
  (.notImplemented "GetFlightInfoImportedKeys not implemented", none)

/-- Default `FlightSqlServerBase::DoGetImportedKeys`. -/
def DoGetImportedKeys (_command : CommandGetImportedKeys) :
    Status × Option FlightDataStream :=
  (.notImplemented "DoGetImportedKeys not implemented", none)

/-- Default `FlightSqlServerBase::CreatePreparedStatement`. -/
def CreatePreparedStatement (_request : ActionCreatePreparedStatementRequest) :
    Status × Option ResultStream :=
  (.notImplemented "CreatePreparedStatement not implemented", none)

/-- Default `FlightSqlServerBase::ClosePreparedStatement`. -/
def ClosePreparedStatement (_request : ActionClosePreparedStatementRequest) :
    Status × Option ResultStream :=
  (.notImplemented "ClosePreparedStatement not implemented", none)

/-- Default `FlightSqlServerBase::DoPutPreparedStatement` (the `Option Unit`
records whether anything was written through the metadata writer). -/
def DoPutPreparedStatement (_command : CommandPreparedStatementQuery) :
    Status × Option Unit :=
  (.notImplemented "DoPutPreparedStatement not implemented", none)

/-- Default `FlightSqlServerBase::DoPutCommandStatementUpdate`. -/
def DoPutCommandStatementUpdate (_command : CommandStatementUpdate) :
    Status × Option Unit :=
  (.notImplemented "DoPutCommandStatementUpdate not implemented", none)

/-! ## Client dispatcher model

The Flight SQL client sources are not among the sampled files (only their
tests are), so the client side is modelled from the spec (§4.3). -/

/-- Modelled from the spec: the update-result envelope, a single
`record_count` field holding a 64-bit signed integer (§6). -/
structure DoPutUpdateResult where
  record_count : Int
deriving DecidableEq, Repr

/-- Modelled from the spec: the wire form of the update-result envelope's
64-bit signed `record_count`, as the unsigned 64-bit word that carries it. -/
def serializeUpdateResult (r : DoPutUpdateResult) : Nat :=
  (r.record_count % (2 : Int) ^ 64).toNat

/-- Modelled from the spec: reading the 64-bit signed `record_count` back
from its unsigned 64-bit wire word (two's complement). -/
def parseUpdateResult (wire : Nat) : DoPutUpdateResult :=
  if wire < 2 ^ 63 then ⟨(wire : Int)⟩ else ⟨(wire : Int) - 2 ^ 64⟩

/-- Modelled from the spec: a push-data response, whose sole metadata buffer
carries a serialized update-result envelope (§4.3 step 4, §6). -/
structure DoPutResponse where
  metadataBuffer : Nat
deriving DecidableEq, Repr

/-- Modelled from the spec: `FlightSqlClient::ExecuteUpdate` reads exactly one
metadata buffer from the push response, decodes it as an update-result
envelope, and returns its row-count field unmodified (§4.3 step 4). -/
def ExecuteUpdate (response : DoPutResponse) : Int :=
  (parseUpdateResult response.metadataBuffer).record_count

/-- Modelled from the spec: `PreparedStatement::ExecuteUpdate` performs a
push-data call, decodes the returned update-result envelope the same way,
and returns the row count (§4.3). -/
def PreparedStatementExecuteUpdate (response : DoPutResponse) : Int :=
  (parseUpdateResult response.metadataBuffer).record_count

/-- An Arrow record batch bound as prepared-statement parameters (opaque). -/
structure RecordBatchData where
  rows : List (List String)
deriving DecidableEq, Repr

/-- One transport call issued by the client, in the order performed. -/
inductive ClientCall where
  | pushData (descriptor : FlightDescriptor) (batch : Option RecordBatchData)
  | getInfo (descriptor : FlightDescriptor)
  | doActionCall (actionType : String)
deriving DecidableEq, Repr

/-- Modelled from the spec: the client-side `PreparedStatement` object, a
capability holder for the server-issued handle plus the batch stored by the
last `SetParameters` call (§4.3). -/
structure PreparedStatement where
  handle : String
  parameter_batch : Option RecordBatchData
deriving DecidableEq, Repr

/-- Modelled from the spec: `PreparedStatement::SetParameters(batch)` stores
the batch for the next Execute/ExecuteUpdate call (§4.3). -/
def PreparedStatement.SetParameters (ps : PreparedStatement)
    (batch : RecordBatchData) : PreparedStatement :=
  { ps with parameter_batch := some batch }

/-- Modelled from the spec: `PreparedStatement::Execute()` as the ordered
trace of transport calls it performs: if a parameter batch is stored, first a
push-data call carrying that batch and the prepared-statement command, then
a get-info call with a command referencing the handle (§4.3). -/
def PreparedStatement.Execute (ps : PreparedStatement) : List ClientCall :=
  let descriptor : FlightDescriptor :=
    ⟨encodeCommand (.preparedStatementQuery ⟨ps.handle⟩)⟩
  (match ps.parameter_batch with
   | some batch => [ClientCall.pushData descriptor (some batch)]
   | none => []) ++ [ClientCall.getInfo descriptor]

/-- Whether a client call is a push-data call. -/
def ClientCall.isPushData : ClientCall → Bool
  | .pushData _ _ => true
  | _ => false

/-- Whether a client call is a get-info call. -/
def ClientCall.isGetInfo : ClientCall → Bool
  | .getInfo _ => true
  | _ => false

end FlightSqlModel

namespace FlightSqlModel

/-- C1: for every supported Command variant C, decoding the envelope produced
by encoding C (pack of the command under its type tag, then unpack against
that tag) yields a Command equal to C in all fields. -/
theorem C1_envelope_roundtrip (c : Command) :
    decodeCommand (encodeCommand c) = some c := by
  cases c <;> rfl

/-- C4: the GetTables result-set schema without `include_schema` has exactly
the 4 string columns catalog_name, schema_name, table_name, table_type; with
`include_schema` it has exactly 5 columns whose first four equal the 4-column
schema and whose fifth is named table_schema with binary type. -/
theorem C4_get_tables_schema_exactness :
    SqlSchema.GetTablesSchema =
      [⟨"catalog_name", ArrowType.utf8, true⟩, ⟨"schema_name", ArrowType.utf8, true⟩,
       ⟨"table_name", ArrowType.utf8, true⟩, ⟨"table_type", ArrowType.utf8, true⟩] ∧
    SqlSchema.GetTablesSchema.length = 4 ∧
    SqlSchema.GetTablesSchemaWithIncludedSchema.length = 5 ∧
    SqlSchema.GetTablesSchemaWithIncludedSchema =
      SqlSchema.GetTablesSchema ++ [⟨"table_schema", ArrowType.binary, true⟩] :=
  ⟨rfl, rfl, rfl, rfl⟩

/-- C5: the GetImportedKeys / GetExportedKeys result-set schema is the single
shared 13-column layout, in exactly the order, types and nullabilities the
spec tabulates. -/
theorem C5_imported_exported_keys_schema :
    SqlSchema.GetImportedAndExportedKeysSchema = specImportedExportedKeysLayout ∧
    SqlSchema.GetImportedAndExportedKeysSchema.length = 13 :=
  ⟨rfl, rfl⟩

/-- C9: `BooleanToString` maps `true` to `"YES"` and `false` to `"NO"`, and
each boolean-valued builder setter appends exactly that string under its
metadata key. -/
theorem C9_boolean_metadata_serialization :
    ColumnMetadataBuilder.BooleanToString true = "YES" ∧
    ColumnMetadataBuilder.BooleanToString false = "NO" ∧
    (∀ (b : ColumnMetadataBuilder) (v : Bool),
      (b.IsAutoIncrement v).metadata_map = b.metadata_map ++
        [(ColumnMetadata.IS_AUTO_INCREMENT, ColumnMetadataBuilder.BooleanToString v)]) ∧
    (∀ (b : ColumnMetadataBuilder) (v : Bool),
      (b.IsCaseSensitive v).metadata_map = b.metadata_map ++
        [(ColumnMetadata.IS_CASE_SENSITIVE, ColumnMetadataBuilder.BooleanToString v)]) ∧
    (∀ (b : ColumnMetadataBuilder) (v : Bool),
      (b.IsReadOnly v).metadata_map = b.metadata_map ++
        [(ColumnMetadata.IS_READ_ONLY, ColumnMetadataBuilder.BooleanToString v)]) ∧
    (∀ (b : ColumnMetadataBuilder) (v : Bool),
      (b.IsSearchable v).metadata_map = b.metadata_map ++
        [(ColumnMetadata.IS_SEARCHABLE, ColumnMetadataBuilder.BooleanToString v)]) :=
  ⟨rfl, rfl, fun _ _ => rfl, fun _ _ => rfl, fun _ _ => rfl, fun _ _ => rfl⟩

/-- C7: for every 64-bit value n carried as `record_count` in the
update-result envelope delivered as the sole metadata buffer of a push-data
response, `ExecuteUpdate` and `PreparedStatement::ExecuteUpdate` return
exactly n, unmodified. -/
theorem C7_execute_update_returns_record_count (n : Int)
    (hlo : -(2 ^ 63) ≤ n) (hhi : n < 2 ^ 63) :
    ExecuteUpdate ⟨serializeUpdateResult ⟨n⟩⟩ = n ∧
    PreparedStatementExecuteUpdate ⟨serializeUpdateResult ⟨n⟩⟩ = n := by
  have key : (parseUpdateResult (serializeUpdateResult ⟨n⟩)).record_count = n := by
    unfold parseUpdateResult serializeUpdateResult
    dsimp only
    split_ifs with h <;> (dsimp only; omega)
  exact ⟨key, key⟩

/-- C7 witness: a push response whose update-result envelope carries
`record_count = 100` makes `ExecuteUpdate` return exactly 100. -/
theorem C7_witness :
    ExecuteUpdate ⟨serializeUpdateResult ⟨(100 : Int)⟩⟩ = 100 :=
  (C7_execute_update_returns_record_count 100 (by norm_num) (by norm_num)).1

/-- C8: after `SetParameters` stored a batch, `Execute` performs exactly one
push-data call carrying the bound batch, strictly before the single get-info
call of that execution; with no stored batch, `Execute` performs no push-data
call. -/
theorem C8_parameter_binding_ordering (ps : PreparedStatement)
    (batch : RecordBatchData) :
    (ps.SetParameters batch).Execute =
      [ClientCall.pushData ⟨encodeCommand (.preparedStatementQuery ⟨ps.handle⟩)⟩
         (some batch),
       ClientCall.getInfo ⟨encodeCommand (.preparedStatementQuery ⟨ps.handle⟩)⟩] ∧
    ((ps.SetParameters batch).Execute.countP (fun c => c.isPushData)) = 1 ∧
    ((ps.SetParameters batch).Execute.countP (fun c => c.isGetInfo)) = 1 ∧
    (ps.parameter_batch = none →
      ps.Execute.countP (fun c => c.isPushData) = 0) := by
  refine ⟨rfl, rfl, rfl, fun h => ?_⟩
  simp [PreparedStatement.Execute, h, List.countP_cons, ClientCall.isPushData]

/-- C8 witness: a prepared statement with no stored batch performs no
push-data call, and one with a stored batch performs the push-data call
first. -/
theorem C8_witness :
    ((⟨"query", none⟩ : PreparedStatement).Execute.countP
      (fun c => c.isPushData)) = 0 ∧
    ((⟨"query", none⟩ : PreparedStatement).SetParameters ⟨[["1"]]⟩).Execute =
      [ClientCall.pushData ⟨encodeCommand (.preparedStatementQuery ⟨"query"⟩)⟩
         (some ⟨[["1"]]⟩),
       ClientCall.getInfo ⟨encodeCommand (.preparedStatementQuery ⟨"query"⟩)⟩] :=
  ⟨(C8_parameter_binding_ordering ⟨"query", none⟩ ⟨[["1"]]⟩).2.2.2 rfl,
   (C8_parameter_binding_ordering ⟨"query", none⟩ ⟨[["1"]]⟩).1⟩

/-- C6: every command-specific handler of `FlightSqlServerBase` has a default
implementation that, for all inputs, returns a NotImplemented status and
produces no result. -/
theorem C6_default_handlers_not_implemented :
    (∀ d, GetFlightInfoCatalogs d =
      (Status.notImplemented "GetFlightInfoCatalogs not implemented", none)) ∧
    DoGetCatalogs = (Status.notImplemented "DoGetCatalogs not implemented", none) ∧
    (∀ c d, GetFlightInfoStatement c d =
      (Status.notImplemented "GetFlightInfoStatement not implemented", none)) ∧
    (∀ c, DoGetStatement c =
      (Status.notImplemented "DoGetStatement not implemented", none)) ∧
    (∀ c d, GetFlightInfoPreparedStatement c d =
      (Status.notImplemented "GetFlightInfoPreparedStatement not implemented", none)) ∧
    (∀ c, DoGetPreparedStatement c =
      (Status.notImplemented "DoGetPreparedStatement not implemented", none)) ∧
    (∀ c d, GetFlightInfoSqlInfo c d =
      (Status.notImplemented "GetFlightInfoSqlInfo not implemented", none)) ∧
    (∀ c, DoGetSqlInfo c =
      (Status.notImplemented "DoGetSqlInfo not implemented", none)) ∧
    (∀ c d, GetFlightInfoSchemas c d =
      (Status.notImplemented "GetFlightInfoSchemas not implemented", none)) ∧
    (∀ c, DoGetSchemas c =
      (Status.notImplemented "DoGetSchemas not implemented", none)) ∧
    (∀ c d, GetFlightInfoTables c d =
      (Status.notImplemented "GetFlightInfoTables not implemented", none)) ∧
    (∀ c, DoGetTables c =
      (Status.notImplemented "DoGetTables not implemented", none)) ∧
    (∀ d, GetFlightInfoTableTypes d =
      (Status.notImplemented "GetFlightInfoTableTypes not implemented", none)) ∧
    DoGetTableTypes = (Status.notImplemented "DoGetTableTypes not implemented", none) ∧
    (∀ c d, GetFlightInfoPrimaryKeys c d =
      (Status.notImplemented "GetFlightInfoPrimaryKeys not implemented", none)) ∧
    (∀ c, DoGetPrimaryKeys c =
      (Status.notImplemented "DoGetPrimaryKeys not implemented", none)) ∧
    (∀ c d, GetFlightInfoExportedKeys c d =
      (Status.notImplemented "GetFlightInfoExportedKeys not implemented", none)) ∧
    (∀ c, DoGetExportedKeys c =
      (Status.notImplemented "DoGetExportedKeys not implemented", none)) ∧
    (∀ c d, GetFlightInfoImportedKeys c d =
      (Status.notImplemented "GetFlightInfoImportedKeys not implemented", none)) ∧
    (∀ c, DoGetImportedKeys c =
      (Status.notImplemented "DoGetImportedKeys not implemented", none)) ∧
    (∀ r, CreatePreparedStatement r =
      (Status.notImplemented "CreatePreparedStatement not implemented", none)) ∧
    (∀ r, ClosePreparedStatement r =
      (Status.notImplemented "ClosePreparedStatement not implemented", none)) ∧
    (∀ c, DoPutPreparedStatement c =
      (Status.notImplemented "DoPutPreparedStatement not implemented", none)) ∧
    (∀ c, DoPutCommandStatementUpdate c =
      (Status.notImplemented "DoPutCommandStatementUpdate not implemented", none)) :=
  ⟨fun _ => rfl, rfl, fun _ _ => rfl, fun _ => rfl, fun _ _ => rfl, fun _ => rfl,
   fun _ _ => rfl, fun _ => rfl, fun _ _ => rfl, fun _ => rfl, fun _ _ => rfl,
   fun _ => rfl, fun _ => rfl, rfl, fun _ _ => rfl, fun _ => rfl, fun _ _ => rfl,
   fun _ => rfl, fun _ _ => rfl, fun _ => rfl, fun _ => rfl, fun _ => rfl,
   fun _ => rfl, fun _ => rfl⟩

/-- Helper: a known tag makes `GetFlightInfo` invoke the handler serving it. -/
theorem getFlightInfo_known (d : FlightDescriptor)
    (h : d.cmd.type_url ∈ getFlightInfoKnownTags) :
    ∃ call, GetFlightInfo d = .invoke call ∧ call.servedTag = d.cmd.type_url := by
  simp only [getFlightInfoKnownTags, List.mem_cons, List.not_mem_nil,
    or_false] at h
  rcases h with h | h | h | h | h | h | h | h | h | h <;>
    simp [GetFlightInfo, InfoHandlerCall.servedTag, h, tagStatementQuery, tagPreparedStatementQuery, tagStatementUpdate, tagGetCatalogs, tagGetSchemas, tagGetTables, tagGetTableTypes, tagGetSqlInfo, tagGetPrimaryKeys, tagGetExportedKeys, tagGetImportedKeys, tagTicketStatementQuery, tagActionCreatePreparedStatementRequest, tagActionClosePreparedStatementRequest]

/-- Helper: an unknown tag makes `GetFlightInfo` return the invalid status. -/
theorem getFlightInfo_unknown (d : FlightDescriptor)
    (h : d.cmd.type_url ∉ getFlightInfoKnownTags) :
    GetFlightInfo d = .error invalidRequestStatus := by
  simp only [getFlightInfoKnownTags, List.mem_cons, List.not_mem_nil,
    or_false, not_or] at h
  obtain ⟨n1, n2, n3, n4, n5, n6, n7, n8, n9, n10⟩ := h
  simp [GetFlightInfo, n1, n2, n3, n4, n5, n6, n7, n8, n9, n10]

/-- Helper: a known tag makes `DoGet` invoke the handler serving it. -/
theorem doGet_known (t : Ticket) (h : t.ticket.type_url ∈ doGetKnownTags) :
    ∃ call, DoGet t = .invoke call ∧ call.servedTag = t.ticket.type_url := by
  simp only [doGetKnownTags, List.mem_cons, List.not_mem_nil, or_false] at h
  rcases h with h | h | h | h | h | h | h | h | h | h <;>
    simp [DoGet, GetHandlerCall.servedTag, h, tagStatementQuery, tagPreparedStatementQuery, tagStatementUpdate, tagGetCatalogs, tagGetSchemas, tagGetTables, tagGetTableTypes, tagGetSqlInfo, tagGetPrimaryKeys, tagGetExportedKeys, tagGetImportedKeys, tagTicketStatementQuery, tagActionCreatePreparedStatementRequest, tagActionClosePreparedStatementRequest]

/-- Helper: an unknown tag makes `DoGet` return the invalid status. -/
theorem doGet_unknown (t : Ticket) (h : t.ticket.type_url ∉ doGetKnownTags) :
    DoGet t = .error invalidRequestStatus := by
  simp only [doGetKnownTags, List.mem_cons, List.not_mem_nil, or_false,
    not_or] at h
  obtain ⟨n1, n2, n3, n4, n5, n6, n7, n8, n9, n10⟩ := h
  simp [DoGet, n1, n2, n3, n4, n5, n6, n7, n8, n9, n10]

/-- Helper: a known tag makes `DoPut` invoke the handler serving it. -/
theorem doPut_known (d : FlightDescriptor) (h : d.cmd.type_url ∈ doPutKnownTags) :
    ∃ call, DoPut d = .invoke call ∧ call.servedTag = d.cmd.type_url := by
  simp only [doPutKnownTags, List.mem_cons, List.not_mem_nil, or_false] at h
  rcases h with h | h <;>
    simp [DoPut, PutHandlerCall.servedTag, h, tagStatementQuery, tagPreparedStatementQuery, tagStatementUpdate, tagGetCatalogs, tagGetSchemas, tagGetTables, tagGetTableTypes, tagGetSqlInfo, tagGetPrimaryKeys, tagGetExportedKeys, tagGetImportedKeys, tagTicketStatementQuery, tagActionCreatePreparedStatementRequest, tagActionClosePreparedStatementRequest]

/-- Helper: an unknown tag makes `DoPut` return the invalid status. -/
theorem doPut_unknown (d : FlightDescriptor) (h : d.cmd.type_url ∉ doPutKnownTags) :
    DoPut d = .error invalidRequestStatus := by
  simp only [doPutKnownTags, List.mem_cons, List.not_mem_nil, or_false,
    not_or] at h
  obtain ⟨n1, n2⟩ := h
  simp [DoPut, n1, n2]

/-- Helper: a known action type name makes `DoAction` invoke its handler. -/
theorem doAction_known (a : Action) (h : a.type ∈ ListActions) :
    ∃ call, DoAction a = .invoke call ∧ call.servedType = a.type := by
  simp only [ListActions, List.mem_cons, List.not_mem_nil, or_false] at h
  rcases h with h | h <;>
    simp [DoAction, ActionHandlerCall.servedType, h, FLIGHT_SQL_CREATE_PREPARED_STATEMENT_TYPE, FLIGHT_SQL_CLOSE_PREPARED_STATEMENT_TYPE]

/-- Helper: an unknown action type name makes `DoAction` return the invalid
status. -/
theorem doAction_unknown (a : Action) (h : a.type ∉ ListActions) :
    DoAction a = .error invalidRequestStatus := by
  simp only [ListActions, List.mem_cons, List.not_mem_nil, or_false,
    not_or] at h
  obtain ⟨n1, n2⟩ := h
  simp [DoAction, n1, n2]

/-- C2: at every server dispatch entry point (GetFlightInfo, DoGet, DoPut,
DoAction), an incoming envelope whose type tag (or action type name) is known
causes exactly one type-specific handler to be invoked — the one serving that
tag — and an unknown tag makes the entry point return the invalid
`InvalidRequest` status without invoking any handler. -/
theorem C2_dispatch_totality_and_exclusivity :
    (∀ d : FlightDescriptor,
      (d.cmd.type_url ∈ getFlightInfoKnownTags →
        ∃ call, GetFlightInfo d = .invoke call ∧ call.servedTag = d.cmd.type_url) ∧
      (d.cmd.type_url ∉ getFlightInfoKnownTags →
        GetFlightInfo d = .error invalidRequestStatus)) ∧
    (∀ t : Ticket,
      (t.ticket.type_url ∈ doGetKnownTags →
        ∃ call, DoGet t = .invoke call ∧ call.servedTag = t.ticket.type_url) ∧
      (t.ticket.type_url ∉ doGetKnownTags →
        DoGet t = .error invalidRequestStatus)) ∧
    (∀ d : FlightDescriptor,
      (d.cmd.type_url ∈ doPutKnownTags →
        ∃ call, DoPut d = .invoke call ∧ call.servedTag = d.cmd.type_url) ∧
      (d.cmd.type_url ∉ doPutKnownTags →
        DoPut d = .error invalidRequestStatus)) ∧
    (∀ a : Action,
      (a.type ∈ ListActions →
        ∃ call, DoAction a = .invoke call ∧ call.servedType = a.type) ∧
      (a.type ∉ ListActions →
        DoAction a = .error invalidRequestStatus)) :=
  ⟨fun d => ⟨getFlightInfo_known d, getFlightInfo_unknown d⟩,
   fun t => ⟨doGet_known t, doGet_unknown t⟩,
   fun d => ⟨doPut_known d, doPut_unknown d⟩,
   fun a => ⟨doAction_known a, doAction_unknown a⟩⟩

/-- C2 witness: a get-catalogs envelope is routed by GetFlightInfo to the
handler serving its tag, and an unrecognized tag makes DoPut return the
invalid-request status. -/
theorem C2_witness :
    (∃ call, GetFlightInfo ⟨⟨tagGetCatalogs, []⟩⟩ = .invoke call ∧
      call.servedTag = tagGetCatalogs) ∧
    DoPut ⟨⟨"unknown.tag", []⟩⟩ = .error invalidRequestStatus :=
  ⟨(C2_dispatch_totality_and_exclusivity.1 ⟨⟨tagGetCatalogs, []⟩⟩).1 (by decide),
   (C2_dispatch_totality_and_exclusivity.2.2.1 ⟨⟨"unknown.tag", []⟩⟩).2 (by decide)⟩

/-- C3 counterexample: the get-cross-reference variant of the closed Command
set is routed by NO server dispatch branch — every server entry point
returns the invalid-request status for an envelope carrying its type tag, so
the variant maps to zero handlers rather than exactly one. -/
theorem C3_counterexample :
    GetFlightInfo ⟨⟨tagGetCrossReference, []⟩⟩ = .error invalidRequestStatus ∧
    DoGet ⟨⟨tagGetCrossReference, []⟩⟩ = .error invalidRequestStatus ∧
    DoPut ⟨⟨tagGetCrossReference, []⟩⟩ = .error invalidRequestStatus ∧
    DoAction ⟨"GetCrossReference", ⟨tagGetCrossReference, []⟩⟩ =
      .error invalidRequestStatus :=
  ⟨rfl, rfl, rfl, rfl⟩

/-- C3 amended: within each server entry point every recognized tag is routed
by exactly one dispatch branch (the invoked handler is the one serving the
envelope's tag), and every Command variant of the closed set EXCEPT
get-cross-reference is routed to its handler by at least one entry point
(the action requests via their action type names); get-cross-reference
matches no server dispatch branch and yields InvalidRequest everywhere. -/
theorem C3_amended_variant_coverage :
    (∀ (d : FlightDescriptor) (call : InfoHandlerCall),
      GetFlightInfo d = .invoke call → call.servedTag = d.cmd.type_url) ∧
    (∀ (t : Ticket) (call : GetHandlerCall),
      DoGet t = .invoke call → call.servedTag = t.ticket.type_url) ∧
    (∀ (d : FlightDescriptor) (call : PutHandlerCall),
      DoPut d = .invoke call → call.servedTag = d.cmd.type_url) ∧
    (∀ (a : Action) (call : ActionHandlerCall),
      DoAction a = .invoke call → call.servedType = a.type) ∧
    (∀ c : CommandStatementQuery,
      GetFlightInfo ⟨encodeCommand (.statementQuery c)⟩ =
        .invoke (.statement c ⟨encodeCommand (.statementQuery c)⟩)) ∧
    (∀ c : CommandPreparedStatementQuery,
      GetFlightInfo ⟨encodeCommand (.preparedStatementQuery c)⟩ =
        .invoke (.preparedStatement c ⟨encodeCommand (.preparedStatementQuery c)⟩)) ∧
    (∀ c : CommandStatementUpdate,
      DoPut ⟨encodeCommand (.statementUpdate c)⟩ =
        .invoke (.commandStatementUpdate c)) ∧
    (∀ c : TicketStatementQuery,
      DoGet ⟨encodeCommand (.ticketStatementQuery c)⟩ = .invoke (.statement c)) ∧
    (∀ c : CommandGetCatalogs,
      GetFlightInfo ⟨encodeCommand (.getCatalogs c)⟩ =
        .invoke (.catalogs ⟨encodeCommand (.getCatalogs c)⟩)) ∧
    (∀ c : CommandGetSchemas,
      GetFlightInfo ⟨encodeCommand (.getSchemas c)⟩ =
        .invoke (.schemas c ⟨encodeCommand (.getSchemas c)⟩)) ∧
    (∀ c : CommandGetTables,
      GetFlightInfo ⟨encodeCommand (.getTables c)⟩ =
        .invoke (.tables c ⟨encodeCommand (.getTables c)⟩)) ∧
    (∀ c : CommandGetTableTypes,
      GetFlightInfo ⟨encodeCommand (.getTableTypes c)⟩ =
        .invoke (.tableTypes ⟨encodeCommand (.getTableTypes c)⟩)) ∧
    (∀ c : CommandGetSqlInfo,
      GetFlightInfo ⟨encodeCommand (.getSqlInfo c)⟩ =
        .invoke (.sqlInfo c ⟨encodeCommand (.getSqlInfo c)⟩)) ∧
    (∀ c : CommandGetPrimaryKeys,
      GetFlightInfo ⟨encodeCommand (.getPrimaryKeys c)⟩ =
        .invoke (.primaryKeys c ⟨encodeCommand (.getPrimaryKeys c)⟩)) ∧
    (∀ c : CommandGetExportedKeys,
      GetFlightInfo ⟨encodeCommand (.getExportedKeys c)⟩ =
        .invoke (.exportedKeys c ⟨encodeCommand (.getExportedKeys c)⟩)) ∧
    (∀ c : CommandGetImportedKeys,
      GetFlightInfo ⟨encodeCommand (.getImportedKeys c)⟩ =
        .invoke (.importedKeys c ⟨encodeCommand (.getImportedKeys c)⟩)) ∧
    (∀ c : ActionCreatePreparedStatementRequest,
      DoAction ⟨FLIGHT_SQL_CREATE_PREPARED_STATEMENT_TYPE,
          encodeCommand (.createPreparedStatementRequest c)⟩ =
        .invoke (.createPreparedStatement c)) ∧
    (∀ c : ActionClosePreparedStatementRequest,
      DoAction ⟨FLIGHT_SQL_CLOSE_PREPARED_STATEMENT_TYPE,
          encodeCommand (.closePreparedStatementRequest c)⟩ =
        .invoke (.closePreparedStatement c)) ∧
    (∀ x : CommandGetCrossReference,
      GetFlightInfo ⟨encodeCommand (.getCrossReference x)⟩ =
          .error invalidRequestStatus ∧
      DoGet ⟨encodeCommand (.getCrossReference x)⟩ = .error invalidRequestStatus ∧
      DoPut ⟨encodeCommand (.getCrossReference x)⟩ = .error invalidRequestStatus) := by
  refine ⟨?_, ?_, ?_, ?_, fun c => rfl, fun c => rfl, fun c => rfl, fun c => rfl,
    fun c => rfl, fun c => rfl, fun c => rfl, fun c => rfl, fun c => rfl,
    fun c => rfl, fun c => rfl, fun c => rfl, fun c => rfl, fun c => rfl,
    fun x => ⟨rfl, rfl, rfl⟩⟩
  · intro d call h
    by_cases hm : d.cmd.type_url ∈ getFlightInfoKnownTags
    · obtain ⟨c2, hc, hs⟩ := getFlightInfo_known d hm
      rw [hc] at h
      injection h with h2
      rw [h2] at hs
      exact hs
    · rw [getFlightInfo_unknown d hm] at h
      simp at h
  · intro t call h
    by_cases hm : t.ticket.type_url ∈ doGetKnownTags
    · obtain ⟨c2, hc, hs⟩ := doGet_known t hm
      rw [hc] at h
      injection h with h2
      rw [h2] at hs
      exact hs
    · rw [doGet_unknown t hm] at h
      simp at h
  · intro d call h
    by_cases hm : d.cmd.type_url ∈ doPutKnownTags
    · obtain ⟨c2, hc, hs⟩ := doPut_known d hm
      rw [hc] at h
      injection h with h2
      rw [h2] at hs
      exact hs
    · rw [doPut_unknown d hm] at h
      simp at h
  · intro a call h
    by_cases hm : a.type ∈ ListActions
    · obtain ⟨c2, hc, hs⟩ := doAction_known a hm
      rw [hc] at h
      injection h with h2
      rw [h2] at hs
      exact hs
    · rw [doAction_unknown a hm] at h
      simp at h

/-- C3 witness: GetFlightInfo routes a get-tables envelope to the handler
serving the get-tables tag. -/
theorem C3_witness :
    (InfoHandlerCall.tables CommandGetTables.protoDefault
      ⟨⟨tagGetTables, []⟩⟩).servedTag = tagGetTables :=
  C3_amended_variant_coverage.1 ⟨⟨tagGetTables, []⟩⟩
    (InfoHandlerCall.tables CommandGetTables.protoDefault ⟨⟨tagGetTables, []⟩⟩)
    (by decide)

/-- C10 counterexample: two GetFlightInfo requests carrying the same
get-catalogs type tag but different payload bytes invoke the catalogs handler
with DIFFERENT arguments — the handler receives the original descriptor,
which is command-derived data — refuting that the dispatcher invokes the
handler with identical arguments regardless of the payload. -/
theorem C10_counterexample :
    GetFlightInfo ⟨⟨tagGetCatalogs, []⟩⟩ =
      .invoke (.catalogs ⟨⟨tagGetCatalogs, []⟩⟩) ∧
    GetFlightInfo ⟨⟨tagGetCatalogs, [FieldVal.s "junk"]⟩⟩ =
      .invoke (.catalogs ⟨⟨tagGetCatalogs, [FieldVal.s "junk"]⟩⟩) ∧
    GetFlightInfo ⟨⟨tagGetCatalogs, []⟩⟩ ≠
      GetFlightInfo ⟨⟨tagGetCatalogs, [FieldVal.s "junk"]⟩⟩ := by
  refine ⟨rfl, rfl, ?_⟩
  decide

/-- C10 amended: for the GetCatalogs and GetTableTypes tags the dispatcher
passes no decoded command data to the handler.  DoGet invokes the same
handler with identical (empty) arguments for ANY payload carrying the tag,
so its response cannot depend on the payload; GetFlightInfo always selects
the same handler for the tag but passes the original descriptor through, so
its arguments coincide only when the raw descriptors coincide. -/
theorem C10_amended_payload_independence :
    (∀ t : Ticket, t.ticket.type_url = tagGetCatalogs →
      DoGet t = .invoke .catalogs) ∧
    (∀ t : Ticket, t.ticket.type_url = tagGetTableTypes →
      DoGet t = .invoke .tableTypes) ∧
    (∀ t1 t2 : Ticket, t1.ticket.type_url = tagGetCatalogs →
      t2.ticket.type_url = tagGetCatalogs → DoGet t1 = DoGet t2) ∧
    (∀ t1 t2 : Ticket, t1.ticket.type_url = tagGetTableTypes →
      t2.ticket.type_url = tagGetTableTypes → DoGet t1 = DoGet t2) ∧
    (∀ d : FlightDescriptor, d.cmd.type_url = tagGetCatalogs →
      GetFlightInfo d = .invoke (.catalogs d)) ∧
    (∀ d : FlightDescriptor, d.cmd.type_url = tagGetTableTypes →
      GetFlightInfo d = .invoke (.tableTypes d)) := by
  have hc : ∀ t : Ticket, t.ticket.type_url = tagGetCatalogs →
      DoGet t = .invoke .catalogs := by
    intro t h
    simp [DoGet, h, tagTicketStatementQuery, tagPreparedStatementQuery,
      tagGetCatalogs]
  have htt : ∀ t : Ticket, t.ticket.type_url = tagGetTableTypes →
      DoGet t = .invoke .tableTypes := by
    intro t h
    simp [DoGet, h, tagTicketStatementQuery, tagPreparedStatementQuery,
      tagGetCatalogs, tagGetSchemas, tagGetTables, tagGetTableTypes]
  have gc : ∀ d : FlightDescriptor, d.cmd.type_url = tagGetCatalogs →
      GetFlightInfo d = .invoke (.catalogs d) := by
    intro d h
    simp [GetFlightInfo, h, tagStatementQuery, tagPreparedStatementQuery,
      tagGetCatalogs]
  have gtt : ∀ d : FlightDescriptor, d.cmd.type_url = tagGetTableTypes →
      GetFlightInfo d = .invoke (.tableTypes d) := by
    intro d h
    simp [GetFlightInfo, h, tagStatementQuery, tagPreparedStatementQuery,
      tagGetCatalogs, tagGetSchemas, tagGetTables, tagGetTableTypes]
  exact ⟨hc, htt,
    fun t1 t2 h1 h2 => (hc t1 h1).trans (hc t2 h2).symm,
    fun t1 t2 h1 h2 => (htt t1 h1).trans (htt t2 h2).symm,
    gc, gtt⟩

/-- C10 witness: a get-catalogs ticket with junk payload bytes still makes
DoGet invoke the catalogs handler with no command-derived arguments. -/
theorem C10_witness :
    DoGet ⟨⟨tagGetCatalogs, [FieldVal.s "ignored"]⟩⟩ = .invoke .catalogs :=
  C10_amended_payload_independence.1 ⟨⟨tagGetCatalogs, [FieldVal.s "ignored"]⟩⟩ rfl

end FlightSqlModel
